import Mathlib

/-
Verification of the load-shape logic of `multi_day_test_shape.py`.

The repository defines a Locust `LoadTestShape` subclass `MultiDayTestShape`
with fixed configuration
  reference_dt  = datetime(2025, 6, 15, 12)        (hour component 12)
  run_duration  = timedelta(days=2, hours=12)      (216000 seconds)
and a `tick` method that, given the elapsed wall-clock seconds since test
start, either signals completion (`None`) or returns a pair
`(desired_user_count, spawn_rate)`.

We embed `tick` as a function of a single real parameter `elapsed`
(the Python code reads `time.perf_counter() - self.start_time`; the spec and
the claims model those reads as one elapsed value).  Python float arithmetic
is modelled over the reals; the Python 3 builtin `round` (banker rounding,
half to even) is modelled by `pyRound`.
-/

namespace MultiDayTestShape

noncomputable section

/-- `run_duration.total_seconds()` for `timedelta(days=2, hours=12)`:
2*86400 + 12*3600 = 216000. -/
def runDurationSeconds : ℝ := 216000

/-- The hour component (0-23) of `_current_dt = reference_dt +
timedelta(seconds=elapsed)`.  `reference_dt` is at 12:00:00, i.e. 43200
seconds past midnight, so the hour is the floor of the total
seconds-past-midnight divided by 3600, reduced mod 24. -/
def hour (elapsed : ℝ) : ℤ := ⌊(43200 + elapsed) / 3600⌋ % 24

/-- `days_since_ref_dt`: seconds / 60 (minutes) / 60 (hours) / 24 (days),
mirroring the chained properties `minutes_since_ref_dt`,
`hours_since_ref_dt`, `days_since_ref_dt`. -/
def days_since_ref_dt (elapsed : ℝ) : ℝ := elapsed / 60 / 60 / 24

/-- `extra_users = 15 if self.hour in (12, 13, 18, 19) else 0`. -/
def extra_users (elapsed : ℝ) : ℝ :=
  if hour elapsed = 12 ∨ hour elapsed = 13 ∨ hour elapsed = 18 ∨ hour elapsed = 19 then 15
  else 0

/-- The Python 3 builtin `round` restricted to exact values: round half to
even.  Away from the midpoint it agrees with the usual round-half-up
`round`; at a midpoint it picks the even neighbour. -/
def pyRound (x : ℝ) : ℤ :=
  if Int.fract x = 1 / 2 then (if Even ⌊x⌋ then ⌊x⌋ else ⌊x⌋ + 1) else round x

/-- `desired_users = 5 * self.days_since_ref_dt
    + 10 * sin((self.days_since_ref_dt - floor(self.days_since_ref_dt)) * pi)
    + 10 + extra_users`. -/
def desired_users (elapsed : ℝ) : ℝ :=
  5 * days_since_ref_dt elapsed +
    10 * Real.sin ((days_since_ref_dt elapsed - ⌊days_since_ref_dt elapsed⌋) * Real.pi) +
    10 + extra_users elapsed

/-- `tick` with the run duration as an explicit parameter (the class keeps it
in an attribute; making it a parameter lets us examine misconfigured
durations).  `None` is modelled by `none`; the returned pair is
`(max([0, round(desired_users)]), 100)`. -/
def tickWith (runSeconds elapsed : ℝ) : Option (ℤ × ℤ) :=
  if elapsed > runSeconds then none
  else some (max 0 (pyRound (desired_users elapsed)), 100)

/-- `MultiDayTestShape.tick` at the configured `run_duration`. -/
def tick (elapsed : ℝ) : Option (ℤ × ℤ) := tickWith runDurationSeconds elapsed

/-! ### Helper lemmas about `pyRound` -/

theorem pyRound_intCast (n : ℤ) : pyRound (n : ℝ) = n := by
  unfold pyRound
  rw [Int.fract_intCast]
  rw [if_neg (by norm_num)]
  exact round_intCast n

theorem floor_le_pyRound (x : ℝ) : ⌊x⌋ ≤ pyRound x := by
  unfold pyRound
  split
  · split
    · exact le_rfl
    · exact le_add_of_nonneg_right zero_le_one
  · rw [round_eq]
    exact Int.floor_mono (by linarith)

theorem pyRound_le_floor_add_one (x : ℝ) : pyRound x ≤ ⌊x⌋ + 1 := by
  unfold pyRound
  split
  · split
    · exact le_add_of_nonneg_right zero_le_one
    · exact le_rfl
  · rw [round_eq]
    refine Int.lt_add_one_iff.mp (Int.floor_lt.mpr ?_)
    push_cast
    have := Int.lt_floor_add_one x
    linarith

theorem round_mono_real {x y : ℝ} (h : x ≤ y) : round x ≤ round y := by
  rw [round_eq, round_eq]
  exact Int.floor_mono (by linarith)

theorem pyRound_mono {x y : ℝ} (h : x ≤ y) : pyRound x ≤ pyRound y := by
  rcases lt_or_le ⌊x⌋ ⌊y⌋ with hf | hf
  · calc pyRound x ≤ ⌊x⌋ + 1 := pyRound_le_floor_add_one x
      _ ≤ ⌊y⌋ := Int.add_one_le_iff.mpr hf
      _ ≤ pyRound y := floor_le_pyRound y
  · have hfe : ⌊x⌋ = ⌊y⌋ := le_antisymm (Int.floor_mono h) hf
    have hxval : (⌊x⌋ : ℝ) + Int.fract x = x := Int.floor_add_fract x
    have hyval : (⌊y⌋ : ℝ) + Int.fract y = y := Int.floor_add_fract y
    have hfract : Int.fract x ≤ Int.fract y := by
      have : (⌊x⌋ : ℝ) = (⌊y⌋ : ℝ) := by exact_mod_cast congrArg Int.cast hfe
      linarith
    unfold pyRound
    by_cases hx : Int.fract x = 1 / 2 <;> by_cases hy : Int.fract y = 1 / 2
    · rw [if_pos hx, if_pos hy, hfe]
    · have hyg : 1 / 2 < Int.fract y := lt_of_le_of_ne (hx ▸ hfract) (Ne.symm hy)
      rw [if_pos hx, if_neg hy]
      have h1 : (if Even ⌊x⌋ then ⌊x⌋ else ⌊x⌋ + 1) ≤ ⌊x⌋ + 1 := by
        split
        · exact le_add_of_nonneg_right zero_le_one
        · exact le_rfl
      have h2 : ⌊y⌋ + 1 ≤ round y := by
        rw [round_eq]
        refine Int.le_floor.mpr ?_
        push_cast
        linarith
      calc (if Even ⌊x⌋ then ⌊x⌋ else ⌊x⌋ + 1) ≤ ⌊x⌋ + 1 := h1
        _ = ⌊y⌋ + 1 := by rw [hfe]
        _ ≤ round y := h2
    · have hxl : Int.fract x < 1 / 2 := lt_of_le_of_ne (hy ▸ hfract) hx
      rw [if_neg hx, if_pos hy]
      have h1 : round x ≤ ⌊x⌋ := by
        rw [round_eq]
        refine Int.lt_add_one_iff.mp (Int.floor_lt.mpr ?_)
        push_cast
        linarith
      have h2 : ⌊y⌋ ≤ (if Even ⌊y⌋ then ⌊y⌋ else ⌊y⌋ + 1) := by
        split
        · exact le_rfl
        · exact le_add_of_nonneg_right zero_le_one
      calc round x ≤ ⌊x⌋ := h1
        _ = ⌊y⌋ := hfe
        _ ≤ _ := h2
    · rw [if_neg hx, if_neg hy]
      exact round_mono_real h

/-! ### Concrete evaluations -/

theorem hour_at_zero : hour 0 = 12 := by
  unfold hour
  rw [show ((43200 : ℝ) + 0) / 3600 = ((12 : ℤ) : ℝ) by norm_num, Int.floor_intCast]
  decide

theorem hour_at_half_day : hour 43200 = 0 := by
  unfold hour
  rw [show ((43200 : ℝ) + 43200) / 3600 = ((24 : ℤ) : ℝ) by norm_num, Int.floor_intCast]
  decide

theorem hour_at_run_end : hour 216000 = 0 := by
  unfold hour
  rw [show ((43200 : ℝ) + 216000) / 3600 = ((72 : ℤ) : ℝ) by norm_num, Int.floor_intCast]
  decide

theorem days_at_zero : days_since_ref_dt 0 = 0 := by
  unfold days_since_ref_dt; norm_num

theorem days_at_half_day : days_since_ref_dt 43200 = 1 / 2 := by
  unfold days_since_ref_dt; norm_num

theorem days_at_run_end : days_since_ref_dt 216000 = 5 / 2 := by
  unfold days_since_ref_dt; norm_num

theorem floor_one_half : ⌊(1 / 2 : ℝ)⌋ = 0 := by
  rw [Int.floor_eq_iff]
  constructor <;> norm_num

theorem floor_five_halves : ⌊(5 / 2 : ℝ)⌋ = 2 := by
  rw [Int.floor_eq_iff]
  constructor <;> norm_num

theorem desired_at_zero : desired_users 0 = 25 := by
  unfold desired_users extra_users
  rw [hour_at_zero, days_at_zero, Int.floor_zero]
  norm_num

theorem desired_at_half_day : desired_users 43200 = 45 / 2 := by
  unfold desired_users extra_users
  rw [hour_at_half_day, days_at_half_day, floor_one_half]
  rw [show ((1 / 2 : ℝ) - ((0 : ℤ) : ℝ)) * Real.pi = Real.pi / 2 by push_cast; ring]
  rw [Real.sin_pi_div_two]
  norm_num

theorem desired_at_run_end : desired_users 216000 = 65 / 2 := by
  unfold desired_users extra_users
  rw [hour_at_run_end, days_at_run_end, floor_five_halves]
  rw [show ((5 / 2 : ℝ) - ((2 : ℤ) : ℝ)) * Real.pi = Real.pi / 2 by push_cast; ring]
  rw [Real.sin_pi_div_two]
  norm_num

theorem pyRound_25 : pyRound (25 : ℝ) = 25 := by
  rw [show (25 : ℝ) = ((25 : ℤ) : ℝ) by norm_num, pyRound_intCast]

theorem pyRound_ten : pyRound (10 : ℝ) = 10 := by
  rw [show (10 : ℝ) = ((10 : ℤ) : ℝ) by norm_num, pyRound_intCast]

theorem pyRound_45_halves : pyRound (45 / 2 : ℝ) = 22 := by
  have hf : ⌊(45 / 2 : ℝ)⌋ = 22 := by
    rw [Int.floor_eq_iff]
    constructor <;> norm_num
  have hfr : Int.fract (45 / 2 : ℝ) = 1 / 2 := by
    rw [← Int.self_sub_floor, hf]
    norm_num
  unfold pyRound
  rw [if_pos hfr, hf]
  decide

theorem pyRound_65_halves : pyRound (65 / 2 : ℝ) = 32 := by
  have hf : ⌊(65 / 2 : ℝ)⌋ = 32 := by
    rw [Int.floor_eq_iff]
    constructor <;> norm_num
  have hfr : Int.fract (65 / 2 : ℝ) = 1 / 2 := by
    rw [← Int.self_sub_floor, hf]
    norm_num
  unfold pyRound
  rw [if_pos hfr, hf]
  decide

theorem tick_zero_val : tick 0 = some (25, 100) := by
  unfold tick tickWith
  rw [if_neg (by norm_num [runDurationSeconds])]
  rw [desired_at_zero, pyRound_25]
  decide

theorem tick_half_day_val : tick 43200 = some (22, 100) := by
  unfold tick tickWith
  rw [if_neg (by norm_num [runDurationSeconds])]
  rw [desired_at_half_day, pyRound_45_halves]
  decide

theorem tick_run_end_val : tick 216000 = some (32, 100) := by
  unfold tick tickWith
  rw [if_neg (by norm_num [runDurationSeconds])]
  rw [desired_at_run_end, pyRound_65_halves]
  decide

/-! ### General helper bounds -/

theorem desired_users_ge_ten (elapsed : ℝ) (h0 : 0 ≤ elapsed) :
    10 ≤ desired_users elapsed := by
  unfold desired_users
  have hd : 0 ≤ days_since_ref_dt elapsed := by
    unfold days_since_ref_dt
    exact div_nonneg (div_nonneg (div_nonneg h0 (by norm_num)) (by norm_num)) (by norm_num)
  have hf0 : 0 ≤ days_since_ref_dt elapsed - ⌊days_since_ref_dt elapsed⌋ := by
    have := Int.floor_le (days_since_ref_dt elapsed)
    linarith
  have hf1 : days_since_ref_dt elapsed - ⌊days_since_ref_dt elapsed⌋ ≤ 1 := by
    have := Int.lt_floor_add_one (days_since_ref_dt elapsed)
    linarith
  have hsin :
      0 ≤ Real.sin ((days_since_ref_dt elapsed - ⌊days_since_ref_dt elapsed⌋) * Real.pi) := by
    apply Real.sin_nonneg_of_nonneg_of_le_pi
    · exact mul_nonneg hf0 Real.pi_pos.le
    · calc (days_since_ref_dt elapsed - ⌊days_since_ref_dt elapsed⌋) * Real.pi
          ≤ 1 * Real.pi := mul_le_mul_of_nonneg_right hf1 Real.pi_pos.le
        _ = Real.pi := one_mul _
  have hextra : 0 ≤ extra_users elapsed := by
    unfold extra_users
    split <;> norm_num
  linarith

/-! ### The claims -/

/-- Claim C1: whenever `elapsed` does not exceed the run duration, `tick`
returns a Target whose concurrency is `max(0, round(desired))` with
`desired = 5 * daysSinceRef + 10 * sin(dayFraction * pi) + 10 + extraUsers`,
`daysSinceRef = elapsed / 86400`, `dayFraction` its fractional part, and
`extraUsers = 15` exactly when the virtual hour is in 12, 13, 18, 19 —
and the ramp rate is 100. -/
theorem tick_matches_formula (elapsed : ℝ) (h0 : 0 ≤ elapsed)
    (h : elapsed ≤ runDurationSeconds) :
    tick elapsed =
      some (max 0 (pyRound (5 * (elapsed / 86400) +
        10 * Real.sin ((elapsed / 86400 - ⌊elapsed / 86400⌋) * Real.pi) + 10 +
        (if hour elapsed = 12 ∨ hour elapsed = 13 ∨ hour elapsed = 18 ∨ hour elapsed = 19
          then 15 else 0))), 100) := by
  have hd : days_since_ref_dt elapsed = elapsed / 86400 := by
    unfold days_since_ref_dt
    rw [div_div, div_div]
    norm_num
  simp only [tick, tickWith, desired_users, extra_users]
  rw [if_neg (not_lt.mpr h), hd]

/-- Claim C1 witness: the formula theorem applied at `elapsed = 0`. -/
theorem tick_matches_formula_witness :
    tick 0 =
      some (max 0 (pyRound (5 * ((0 : ℝ) / 86400) +
        10 * Real.sin (((0 : ℝ) / 86400 - ⌊(0 : ℝ) / 86400⌋) * Real.pi) + 10 +
        (if hour 0 = 12 ∨ hour 0 = 13 ∨ hour 0 = 18 ∨ hour 0 = 19
          then 15 else 0))), 100) :=
  tick_matches_formula 0 le_rfl (by norm_num [runDurationSeconds])

/-- Claim C2 counterexample: at the exact boundary `elapsed = RunDuration`
the comparison `elapsed > run_duration.total_seconds()` is false, so `tick`
returns a Target (concurrency 32), not the terminal sentinel. -/
theorem tick_at_exact_boundary_is_target :
    tick runDurationSeconds = some (32, 100) := tick_run_end_val

/-- Claim C2 (amended): for every elapsed strictly greater than the run
duration, `tick` returns the terminal sentinel. -/
theorem tick_after_runDuration_done (elapsed : ℝ) (h : runDurationSeconds < elapsed) :
    tick elapsed = none := by
  unfold tick tickWith
  exact if_pos h

/-- Claim C2 witness: `tick` is done at 216001 seconds. -/
theorem tick_after_runDuration_done_witness : tick 216001 = none :=
  tick_after_runDuration_done 216001 (by norm_num [runDurationSeconds])

/-- Claim C3: once elapsed time has exceeded the run duration, every later
evaluation (at any strictly larger elapsed value) returns the terminal
sentinel, never a Target. -/
theorem done_is_terminal (e1 e2 : ℝ) (h1 : runDurationSeconds < e1) (h12 : e1 < e2) :
    tick e2 = none := by
  unfold tick tickWith
  exact if_pos (lt_trans h1 h12)

/-- Claim C3 witness: applied with elapsed values 216001 and 216002. -/
theorem done_is_terminal_witness : tick 216002 = none :=
  done_is_terminal 216001 216002 (by norm_num [runDurationSeconds]) (by norm_num)

/-- Claim C4: for every elapsed duration strictly below the run duration,
`tick` returns a Target with a non-negative integer concurrency and a ramp
rate of exactly 100. -/
theorem in_run_returns_target (elapsed : ℝ) (h0 : 0 ≤ elapsed)
    (h : elapsed < runDurationSeconds) :
    ∃ c : ℤ, tick elapsed = some (c, 100) ∧ 0 ≤ c := by
  refine ⟨max 0 (pyRound (desired_users elapsed)), ?_, le_max_left 0 _⟩
  unfold tick tickWith
  rw [if_neg (not_lt.mpr h.le)]

/-- Claim C4 witness: applied at `elapsed = 0`. -/
theorem in_run_returns_target_witness :
    ∃ c : ℤ, tick 0 = some (c, 100) ∧ 0 ≤ c :=
  in_run_returns_target 0 le_rfl (by norm_num [runDurationSeconds])

/-- Claim C5: with the default constants, `tick` at elapsed 0 returns the
Target (25, 100): virtual hour 12 gives the 15-user bonus, the growth and
wave terms vanish, and 10 + 15 = 25. -/
theorem tick_at_zero_eq : tick 0 = some (25, 100) := tick_zero_val

/-- Claim C6 counterexample: at elapsed 12 hours the code does not return
Target (23, 100): the desired value 22.5 is rounded half-to-even by the
Python builtin round, giving 22. -/
theorem tick_at_12h_ne_23 : tick 43200 ≠ some (23, 100) := by
  rw [tick_half_day_val]
  decide

/-- Claim C6 (amended): at elapsed 12 hours the virtual hour is 0 so
extraUsers is 0, desired = 2.5 + 10 + 10 = 22.5, and round-half-to-even
gives Target (22, 100). -/
theorem tick_at_12h_eq_22 : tick 43200 = some (22, 100) := tick_half_day_val

/-- Claim C7: at elapsed 43200 s the day fraction is 1/2, the maximum of the
intra-day wave, but the virtual hour is 0 (midnight), not 12: the wave peaks
half a day after the reference instant, which itself sits at hour 12. -/
theorem wave_peak_at_virtual_midnight :
    days_since_ref_dt 43200 - ⌊days_since_ref_dt 43200⌋ = 1 / 2 ∧
      hour 43200 = 0 ∧ ¬ hour 43200 = 12 := by
  refine ⟨?_, hour_at_half_day, ?_⟩
  · rw [days_at_half_day, floor_one_half]
    norm_num
  · rw [hour_at_half_day]
    decide

/-- Claim C8 counterexample: with `RunDuration = 0` and `elapsed = 0` the
strict comparison `elapsed > run_duration` is false, so the first
evaluation returns a Target, not the terminal sentinel. -/
theorem zero_runDuration_zero_elapsed_target :
    tickWith 0 0 = some (25, 100) := by
  unfold tickWith
  rw [if_neg (lt_irrefl (0 : ℝ)), desired_at_zero, pyRound_25]
  decide

/-- Claim C8 (amended): a non-positive run duration yields the terminal
sentinel on every evaluation except in the single degenerate case
`RunDuration = 0` and `elapsed = 0`, where the strict comparison still
admits a Target. -/
theorem nonpositive_runDuration_done (runSeconds elapsed : ℝ) (hr : runSeconds ≤ 0)
    (he : 0 ≤ elapsed) (hne : runSeconds < 0 ∨ 0 < elapsed) :
    tickWith runSeconds elapsed = none := by
  unfold tickWith
  rcases hne with hlt | hlt
  · exact if_pos (lt_of_lt_of_le hlt he)
  · exact if_pos (lt_of_le_of_lt hr hlt)

/-- Claim C8 witness: applied with run duration -1 and elapsed 0. -/
theorem nonpositive_runDuration_done_witness : tickWith (-1) 0 = none :=
  nonpositive_runDuration_done (-1) 0 (by norm_num) le_rfl (Or.inl (by norm_num))

/-- Claim C9: holding the day fraction and the extra-users bonus fixed,
the returned concurrency is monotone in elapsed time: for in-run elapsed
values `e1 ≤ e2` with equal day fractions and equal bonuses, the Target
concurrency at `e2` is at least the one at `e1`. -/
theorem concurrency_mono_in_days (e1 e2 : ℝ) (h0 : 0 ≤ e1) (h12 : e1 ≤ e2)
    (h2 : e2 ≤ runDurationSeconds)
    (hfrac : days_since_ref_dt e1 - ⌊days_since_ref_dt e1⌋ =
      days_since_ref_dt e2 - ⌊days_since_ref_dt e2⌋)
    (hextra : extra_users e1 = extra_users e2)
    (c1 r1 c2 r2 : ℤ) (ht1 : tick e1 = some (c1, r1)) (ht2 : tick e2 = some (c2, r2)) :
    c1 ≤ c2 := by
  simp only [tick, tickWith] at ht1 ht2
  rw [if_neg (not_lt.mpr (le_trans h12 h2))] at ht1
  rw [if_neg (not_lt.mpr h2)] at ht2
  simp only [Option.some.injEq, Prod.mk.injEq] at ht1 ht2
  rw [← ht1.1, ← ht2.1]
  have hdays : days_since_ref_dt e1 ≤ days_since_ref_dt e2 := by
    unfold days_since_ref_dt
    gcongr
  have hdes : desired_users e1 ≤ desired_users e2 := by
    unfold desired_users
    rw [hfrac, hextra]
    linarith
  exact max_le_max le_rfl (pyRound_mono hdes)

/-- Claim C9 witness: applied at `e1 = e2 = 0` with the concrete Target
(25, 100). -/
theorem concurrency_mono_in_days_witness :
    tick 0 = some (25, 100) ∧ (25 : ℤ) ≤ 25 :=
  ⟨tick_zero_val,
    concurrency_mono_in_days 0 0 le_rfl le_rfl (by norm_num [runDurationSeconds]) rfl rfl
      25 100 25 100 tick_zero_val tick_zero_val⟩

/-- Claim C10: for every in-run evaluation the clamp `max 0 _` is inert —
`tick` returns exactly the rounded desired value — and that concurrency is
at least 10, because every term of the formula is non-negative and the
baseline is 10. -/
theorem concurrency_ge_baseline (elapsed : ℝ) (h0 : 0 ≤ elapsed)
    (h : elapsed ≤ runDurationSeconds) :
    tick elapsed = some (pyRound (desired_users elapsed), 100) ∧
      10 ≤ pyRound (desired_users elapsed) := by
  have hge : (10 : ℝ) ≤ desired_users elapsed := desired_users_ge_ten elapsed h0
  have h10 : (10 : ℤ) ≤ pyRound (desired_users elapsed) := by
    have hm := pyRound_mono hge
    rwa [pyRound_ten] at hm
  refine ⟨?_, h10⟩
  unfold tick tickWith
  rw [if_neg (not_lt.mpr h), max_eq_right (le_trans (by norm_num) h10)]

/-- Claim C10 witness: applied at `elapsed = 0`. -/
theorem concurrency_ge_baseline_witness :
    tick 0 = some (pyRound (desired_users 0), 100) ∧
      10 ≤ pyRound (desired_users 0) :=
  concurrency_ge_baseline 0 le_rfl (by norm_num [runDurationSeconds])

end

end MultiDayTestShape
